import Mathlib

/-!
Shallow embedding of the `gestortareas` repository: the `Usuario` entity
(src/usuarios.py), the `Tarea` entity (tareas.py, modelled from the spec,
since only its callers ship in src/), and the `GestorTareas` service
(src/gestor_tareas.py).  Python exceptions are modelled by an inductive
error type whose constructors are the specification error kinds; each
constructor carries the exact message raised at the corresponding source
raise site, so two source errors are equal in the model exactly when the
source raises the same exception with the same message.  External inputs
(uuid4, datetime.now, bcrypt.gensalt) are passed as explicit parameters.
Persistence is modelled by a trace of write events emitted by each
operation, in source order.
-/

/-- Error kinds of the specification, one constructor per kind; the payload
is the message of the Python exception raised at the source raise site. -/
inductive Err where
  | validationError : String → Err
  | conflictError : String → Err
  | notFoundError : String → Err
  | permissionError : String → Err
  | authError : String → Err
  | stateError : String → Err
deriving Repr, DecidableEq

/-- Idealized model of a bcrypt hash: the salt together with the content the
hash commits to.  `bcrypt.hashpw` is injective in the password for a fixed
salt and `bcrypt.checkpw` succeeds exactly on the hashed password; the model
realizes this ideal behaviour directly. -/
structure BHash where
  salt : Nat
  content : String
deriving Repr, DecidableEq

def bcrypt.hashpw (password : String) (salt : Nat) : BHash :=
  ⟨salt, password⟩

def bcrypt.checkpw (password : String) (h : BHash) : Bool :=
  password == h.content

/-- The `Usuario` record of src/usuarios.py.  `fecha_creacion` is a datetime
modelled as a numeric timestamp; `password_hash` is `none` when no
credential is set. -/
structure Usuario where
  id : String
  nombre : String
  nombre_visible : String
  rol : String
  fecha_creacion : Nat
  password_hash : Option BHash
deriving Repr, DecidableEq

/-- `Usuario.cambiar_password` (src/usuarios.py lines 73-90): rejects an
empty password, otherwise stores the salted hash of the new password. -/
def Usuario.cambiar_password (u : Usuario) (nueva_password : String) (salt : Nat) :
    Except Err Usuario :=
  if nueva_password = "" then
    .error (.validationError "La contraseña no puede estar vacía.")
  else
    .ok { u with password_hash := some (bcrypt.hashpw nueva_password salt) }

/-- `Usuario.verificar_password` (src/usuarios.py lines 55-71): raises when
no credential is set, otherwise checks the password against the hash. -/
def Usuario.verificar_password (u : Usuario) (password : String) : Except Err Bool :=
  match u.password_hash with
  | none => .error (.stateError "El usuario no tiene contraseña configurada.")
  | some h => .ok (bcrypt.checkpw password h)

/-- `Usuario.resetear_password` (src/usuarios.py lines 92-97). -/
def Usuario.resetear_password (u : Usuario) : Usuario :=
  { u with password_hash := none }

/-- `Usuario.es_admin` (src/usuarios.py lines 103-110). -/
def Usuario.es_admin (u : Usuario) : Bool :=
  u.rol == "admin"

/-- `Usuario.es_supervisor` (src/usuarios.py lines 112-119). -/
def Usuario.es_supervisor (u : Usuario) : Bool :=
  u.rol == "supervisor"

/-- `Usuario.__init__` (src/usuarios.py lines 15-49).  `freshId` stands for
`str(uuid4())`, `now` for `datetime.now()`, `salt` for `bcrypt.gensalt()`.
`user_id or str(uuid4())` uses Python truthiness, so an empty supplied id is
replaced by the fresh one; a datetime is never falsy, so `fecha_creacion or
datetime.now()` only defaults on `None`. -/
def Usuario.init (nombre nombre_visible rol : String) (password : Option String)
    (user_id : Option String) (fecha_creacion : Option Nat)
    (freshId : String) (now : Nat) (salt : Nat) : Except Err Usuario :=
  if nombre = "" then
    .error (.validationError "El nombre de usuario no puede estar vacío.")
  else if rol ≠ "user" ∧ rol ≠ "supervisor" ∧ rol ≠ "admin" then
    .error (.validationError "El rol debe ser user, supervisor o admin.")
  else
    let id0 : String :=
      match user_id with
      | some s => if s = "" then freshId else s
      | none => freshId
    let u : Usuario :=
      { id := id0, nombre := nombre, nombre_visible := nombre_visible, rol := rol,
        fecha_creacion := fecha_creacion.getD now, password_hash := none }
    match password with
    | none => .ok u
    | some p => u.cambiar_password p salt

/-- The serialized form produced by `Usuario.to_dict` (src/usuarios.py lines
129-145).  The utf-8 decoding of the hash bytes and `isoformat()` of the
datetime are bijections onto their ranges and are modelled as the
identity. -/
structure UsuarioDict where
  id : String
  nombre : String
  nombre_visible : String
  rol : String
  password_hash : Option BHash
  fecha_creacion : Nat
deriving Repr, DecidableEq

/-- `Usuario.to_dict` (src/usuarios.py lines 129-145). -/
def Usuario.to_dict (u : Usuario) : UsuarioDict :=
  { id := u.id, nombre := u.nombre, nombre_visible := u.nombre_visible,
    rol := u.rol, password_hash := u.password_hash,
    fecha_creacion := u.fecha_creacion }

/-- `Usuario.from_dict` (src/usuarios.py lines 147-170): reconstructs via the
constructor with `password=None` (hence no re-hashing), then installs the
stored hash verbatim when present. -/
def Usuario.from_dict (data : UsuarioDict) (freshId : String) (now : Nat) (salt : Nat) :
    Except Err Usuario :=
  match Usuario.init data.nombre data.nombre_visible data.rol none
      (some data.id) (some data.fecha_creacion) freshId now salt with
  | .error e => .error e
  | .ok usuario =>
    .ok (match data.password_hash with
      | none => usuario
      | some h => { usuario with password_hash := some h })

/-- A comment on a task: (text, author reference, timestamp). -/
structure Comentario where
  texto : String
  autor_id : String
  fecha : Nat
deriving Repr, DecidableEq

/-- Modelled from the spec: the Task entity of tareas.py, which is imported
by src/gestor_tareas.py but absent from src/.  Fields follow spec section 3
and the API schema TareaDetalle: name, optional description, status in
("pendiente", "finalizada"), creation timestamp, assigned-user list,
comment log. -/
structure Tarea where
  nombre : String
  descripcion : String
  estado : String
  fecha_creacion : Nat
  usuarios_asignados : List Usuario
  comentarios : List Comentario
deriving Repr, DecidableEq

/-- Modelled from the spec: the Task constructor of the missing tareas.py,
spec section 4.3: validates the name non-empty, initial status pending. -/
def Tarea.init (nombre descripcion : String) (now : Nat) : Except Err Tarea :=
  if nombre = "" then
    .error (.validationError "El nombre de la tarea no puede estar vacío.")
  else
    .ok { nombre := nombre, descripcion := descripcion, estado := "pendiente",
          fecha_creacion := now, usuarios_asignados := [], comentarios := [] }

/-- Modelled from the spec: `Tarea.cambiar_estado` of the missing tareas.py,
called as `tarea.cambiar_estado("finalizada")`; spec section 4.3 `finish()`
fails with StateError when the task is already finished, otherwise
transitions the status. -/
def Tarea.cambiar_estado (t : Tarea) (nuevo : String) : Except Err Tarea :=
  if t.estado = "finalizada" then
    .error (.stateError "La tarea ya está finalizada.")
  else
    .ok { t with estado := nuevo }

/-- Modelled from the spec: `Tarea.agregar_usuario` of the missing
tareas.py; spec section 4.3 `assign(user)` adds the user reference if
absent, idempotently, with no role check. -/
def Tarea.agregar_usuario (t : Tarea) (u : Usuario) : Tarea :=
  if t.usuarios_asignados.any (fun v => v.id == u.id) then t
  else { t with usuarios_asignados := t.usuarios_asignados ++ [u] }

/-- The immutable detail snapshot of a task, mirroring the API schema
TareaDetalle (src/api/schemas.py lines 191-203). -/
structure TareaDetalle where
  nombre : String
  descripcion : String
  estado : String
  fecha_creacion : Nat
  usuarios_asignados : List Usuario
  comentarios : List Comentario
deriving Repr, DecidableEq

/-- Modelled from the spec: `Tarea.obtener_detalle` of the missing
tareas.py; spec section 4.3 `detail()` produces an immutable snapshot of all
fields, the value captured into the archive on finish. -/
def Tarea.obtener_detalle (t : Tarea) : TareaDetalle :=
  { nombre := t.nombre, descripcion := t.descripcion, estado := t.estado,
    fecha_creacion := t.fecha_creacion,
    usuarios_asignados := t.usuarios_asignados, comentarios := t.comentarios }

/-- Lookup in a Python-dict model: first binding of the key. -/
def PyDict.get {α : Type} (m : List (String × α)) (k : String) : Option α :=
  match m with
  | [] => none
  | (k', v) :: rest => if k' = k then some v else PyDict.get rest k

/-- `d[k] = v` on a Python-dict model: replace the binding in place when the
key is present, otherwise append it. -/
def PyDict.set {α : Type} (m : List (String × α)) (k : String) (v : α) :
    List (String × α) :=
  match m with
  | [] => [(k, v)]
  | (k', v') :: rest =>
    if k' = k then (k, v) :: rest else (k', v') :: PyDict.set rest k v

/-- `del d[k]` on a Python-dict model (keys are unique in a dict, so
removing every binding of the key is faithful). -/
def PyDict.erase {α : Type} (m : List (String × α)) (k : String) :
    List (String × α) :=
  m.filter (fun p => p.1 ≠ k)

/-- `d.values()` on a Python-dict model. -/
def PyDict.values {α : Type} (m : List (String × α)) : List α :=
  m.map Prod.snd

/-- One write performed through the persistence helpers of utils (external
collaborator): a whole-collection snapshot of the users file, of the tasks
file, or a rewrite of the archive JSON with its new full contents. -/
inductive WriteEvent where
  | guardarUsuarios : List Usuario → WriteEvent
  | guardarTareas : List Tarea → WriteEvent
  | escribirHistorico : List TareaDetalle → WriteEvent
deriving Repr, DecidableEq

/-- The in-memory state of `GestorTareas` (src/gestor_tareas.py lines
29-34) together with the contents of the archive file
tareas_finalizadas.json, which `finalizar_tarea` reads and rewrites. -/
structure Gestor where
  usuarios : List (String × Usuario)
  tareas : List (String × Tarea)
  historico : List TareaDetalle
deriving Repr, DecidableEq

/-- `GestorTareas._guardar_todo` (src/gestor_tareas.py lines 40-43): the two
snapshot writes it performs, in order. -/
def Gestor.guardar_todo (g : Gestor) : List WriteEvent :=
  [.guardarUsuarios (PyDict.values g.usuarios),
   .guardarTareas (PyDict.values g.tareas)]

/-- Result of one service operation: the state after the call (unchanged
when an exception was raised before any mutation), the persistence writes
performed, in order, and the returned value or the exception. -/
structure Outcome (α : Type) where
  gestor : Gestor
  writes : List WriteEvent
  result : Except Err α
deriving Repr

/-- `GestorTareas.__init__` (src/gestor_tareas.py lines 29-34): both maps
are built keyed by each loaded entity's own name. -/
def Gestor.load (usuarios : List Usuario) (tareas : List Tarea)
    (historico : List TareaDetalle) : Gestor :=
  { usuarios := usuarios.foldl (fun m u => PyDict.set m u.nombre u) [],
    tareas := tareas.foldl (fun m t => PyDict.set m t.nombre t) [],
    historico := historico }

/-- `GestorTareas.crear_usuario` (src/gestor_tareas.py lines 49-74). -/
def Gestor.crear_usuario (g : Gestor) (nombre nombre_visible rol : String)
    (password : Option String) (freshId : String) (now : Nat) (salt : Nat) :
    Outcome Usuario :=
  if (PyDict.get g.usuarios nombre).isSome then
    ⟨g, [], .error (.conflictError "Ya existe un usuario con ese nombre.")⟩
  else
    match Usuario.init nombre nombre_visible rol password none none
        freshId now salt with
    | .error e => ⟨g, [], .error e⟩
    | .ok usuario =>
      let g' : Gestor := { g with usuarios := PyDict.set g.usuarios nombre usuario }
      ⟨g', g'.guardar_todo, .ok usuario⟩

/-- `GestorTareas.autenticar_usuario` (src/gestor_tareas.py lines 76-90):
missing user, then credential check; `verificar_password` raising on an
unset credential propagates to the caller. -/
def Gestor.autenticar_usuario (g : Gestor) (nombre password : String) :
    Outcome Usuario :=
  match PyDict.get g.usuarios nombre with
  | none => ⟨g, [], .error (.notFoundError "Usuario inexistente.")⟩
  | some usuario =>
    match usuario.verificar_password password with
    | .error e => ⟨g, [], .error e⟩
    | .ok b =>
      if b then ⟨g, [], .ok usuario⟩
      else ⟨g, [], .error (.authError "Contraseña incorrecta.")⟩

/-- `GestorTareas.resetear_password_usuario` (src/gestor_tareas.py lines
92-111): admin gate first, then existence. -/
def Gestor.resetear_password_usuario (g : Gestor) (admin : Usuario)
    (nombre_usuario : String) : Outcome Unit :=
  if ¬ admin.es_admin then
    ⟨g, [], .error (.permissionError "Solo un admin puede resetear contraseñas.")⟩
  else
    match PyDict.get g.usuarios nombre_usuario with
    | none => ⟨g, [], .error (.notFoundError "Usuario inexistente.")⟩
    | some usuario =>
      let usuarios' := PyDict.set g.usuarios nombre_usuario usuario.resetear_password
      let g' : Gestor := { g with usuarios := usuarios' }
      ⟨g', g'.guardar_todo, .ok ()⟩

/-- `GestorTareas.crear_tarea` (src/gestor_tareas.py lines 118-137): role
gate first, then duplicate-name check. -/
def Gestor.crear_tarea (g : Gestor) (nombre descripcion : String)
    (actor : Usuario) (now : Nat) : Outcome Tarea :=
  if ¬ (actor.es_admin || actor.es_supervisor) then
    ⟨g, [], .error (.permissionError
      "Solo administradores o supervisores pueden crear tareas.")⟩
  else if (PyDict.get g.tareas nombre).isSome then
    ⟨g, [], .error (.conflictError "Ya existe una tarea con ese nombre.")⟩
  else
    match Tarea.init nombre descripcion now with
    | .error e => ⟨g, [], .error e⟩
    | .ok tarea =>
      let g' : Gestor := { g with tareas := PyDict.set g.tareas nombre tarea }
      ⟨g', g'.guardar_todo, .ok tarea⟩

/-- `GestorTareas.asignar_usuario_tarea` (src/gestor_tareas.py lines
140-161): role gate, joint existence check, supervisor-target rule,
mutation, persistence. -/
def Gestor.asignar_usuario_tarea (g : Gestor) (actor : Usuario)
    (nombre_usuario nombre_tarea : String) : Outcome Unit :=
  if ¬ (actor.es_admin || actor.es_supervisor) then
    ⟨g, [], .error (.permissionError "No tiene permisos para asignar tareas.")⟩
  else
    match PyDict.get g.usuarios nombre_usuario, PyDict.get g.tareas nombre_tarea with
    | some usuario, some tarea =>
      if actor.es_supervisor ∧ usuario.rol ≠ "user" then
        ⟨g, [], .error (.permissionError
          "Un supervisor solo puede asignar tareas a usuarios comunes.")⟩
      else
        let tareas' := PyDict.set g.tareas nombre_tarea (tarea.agregar_usuario usuario)
        let g' : Gestor := { g with tareas := tareas' }
        ⟨g', g'.guardar_todo, .ok ()⟩
    | _, _ => ⟨g, [], .error (.notFoundError "Usuario o tarea inexistente.")⟩

/-- `GestorTareas.finalizar_tarea` (src/gestor_tareas.py lines 164-178):
transition the status, append the detail snapshot to the archive and
rewrite it, then save the live snapshot — archive write first. -/
def Gestor.finalizar_tarea (g : Gestor) (nombre_tarea : String) : Outcome Unit :=
  match PyDict.get g.tareas nombre_tarea with
  | none => ⟨g, [], .error (.notFoundError "Tarea inexistente.")⟩
  | some tarea =>
    match tarea.cambiar_estado "finalizada" with
    | .error e => ⟨g, [], .error e⟩
    | .ok tarea' =>
      let historico' := g.historico ++ [tarea'.obtener_detalle]
      let tareas' := PyDict.set g.tareas nombre_tarea tarea'
      let g' : Gestor := { g with tareas := tareas', historico := historico' }
      ⟨g', .escribirHistorico historico' :: g'.guardar_todo, .ok ()⟩

/-- `GestorTareas.eliminar_tarea` (src/gestor_tareas.py lines 180-192):
only a finished task may be deleted. -/
def Gestor.eliminar_tarea (g : Gestor) (nombre_tarea : String) : Outcome Unit :=
  match PyDict.get g.tareas nombre_tarea with
  | none => ⟨g, [], .error (.notFoundError "Tarea inexistente.")⟩
  | some tarea =>
    if tarea.estado ≠ "finalizada" then
      ⟨g, [], .error (.stateError "Solo se pueden eliminar tareas finalizadas.")⟩
    else
      let g' : Gestor := { g with tareas := PyDict.erase g.tareas nombre_tarea }
      ⟨g', g'.guardar_todo, .ok ()⟩

/-- `GestorTareas.existe_admin` (src/gestor_tareas.py lines 208-212). -/
def Gestor.existe_admin (g : Gestor) : Bool :=
  (PyDict.values g.usuarios).any Usuario.es_admin

/-- One service operation with all its inputs, for stating invariants over
every reachable state. -/
inductive Op where
  | crearUsuario (nombre nombre_visible rol : String) (password : Option String)
      (freshId : String) (now salt : Nat)
  | autenticar (nombre password : String)
  | resetearPassword (admin : Usuario) (nombre_usuario : String)
  | crearTarea (nombre descripcion : String) (actor : Usuario) (now : Nat)
  | asignar (actor : Usuario) (nombre_usuario nombre_tarea : String)
  | finalizar (nombre_tarea : String)
  | eliminar (nombre_tarea : String)

/-- The state after running one service operation (unchanged when the
operation raised). -/
def Gestor.step (g : Gestor) : Op → Gestor
  | .crearUsuario n v r p fid now salt => (g.crear_usuario n v r p fid now salt).gestor
  | .autenticar n p => (g.autenticar_usuario n p).gestor
  | .resetearPassword a n => (g.resetear_password_usuario a n).gestor
  | .crearTarea n d a now => (g.crear_tarea n d a now).gestor
  | .asignar a nu nt => (g.asignar_usuario_tarea a nu nt).gestor
  | .finalizar nt => (g.finalizar_tarea nt).gestor
  | .eliminar nt => (g.eliminar_tarea nt).gestor

/-- The map-key consistency invariant of the service state: every binding in
the users map stores a user whose own name is the key, and likewise for the
tasks map. -/
def Gestor.claves_consistentes (g : Gestor) : Prop :=
  (∀ k u, PyDict.get g.usuarios k = some u → u.nombre = k) ∧
  (∀ k t, PyDict.get g.tareas k = some t → t.nombre = k)

theorem PyDict.get_set {α : Type} (m : List (String × α)) (k j : String) (v : α) :
    PyDict.get (PyDict.set m k v) j = if j = k then some v else PyDict.get m j := by
  induction m with
  | nil =>
    by_cases h : j = k
    · simp [PyDict.set, PyDict.get, h]
    · have h' : ¬ k = j := fun hh => h hh.symm
      simp [PyDict.set, PyDict.get, h, h']
  | cons hd tl ih =>
    obtain ⟨k', v'⟩ := hd
    by_cases hk : k' = k
    · by_cases hj : j = k
      · simp [PyDict.set, PyDict.get, hk, hj]
      · have hj' : ¬ k = j := fun hh => hj hh.symm
        simp [PyDict.set, PyDict.get, hk, hj, hj']
    · by_cases hj2 : k' = j
      · have hjk : ¬ j = k := fun hh => hk (hj2.trans hh)
        simp [PyDict.set, PyDict.get, hk, hj2, hjk]
      · simp [PyDict.set, PyDict.get, hk, hj2, ih]

theorem PyDict.erase_cons {α : Type} (k' : String) (v' : α)
    (tl : List (String × α)) (k : String) :
    PyDict.erase ((k', v') :: tl) k =
      if k' = k then PyDict.erase tl k else (k', v') :: PyDict.erase tl k := by
  by_cases h : k' = k <;> simp [PyDict.erase, List.filter_cons, h]

theorem PyDict.get_erase {α : Type} (m : List (String × α)) (k j : String) :
    PyDict.get (PyDict.erase m k) j = if j = k then none else PyDict.get m j := by
  induction m with
  | nil =>
    simp [PyDict.erase, PyDict.get]
  | cons hd tl ih =>
    obtain ⟨k', v'⟩ := hd
    rw [PyDict.erase_cons]
    by_cases hk : k' = k
    · rw [if_pos hk, ih]
      by_cases hj : j = k
      · simp [PyDict.get, hj]
      · have hj' : ¬ k' = j := fun hh => hj (hh.symm.trans hk)
        simp [PyDict.get, hj, hj']
    · rw [if_neg hk]
      by_cases hj2 : k' = j
      · have hjk : ¬ j = k := fun hh => hk (hj2.trans hh)
        simp [PyDict.get, hj2, hjk]
      · simp [PyDict.get, hj2, ih]

/-- C6: for every non-empty user name, constructing a `Usuario` succeeds for
each of the role strings "user", "supervisor" and "admin" (keeping that
role), fails with a ValidationError for any other role string, and fails
with a ValidationError when the name is empty. -/
theorem usuario_init_validation_spec
    (nombre nombre_visible rol : String) (password : Option String)
    (freshId : String) (now salt : Nat)
    (hn : nombre ≠ "") (hp : ∀ p, password = some p → p ≠ "") :
    ((rol = "user" ∨ rol = "supervisor" ∨ rol = "admin") →
      ∃ u, Usuario.init nombre nombre_visible rol password none none
          freshId now salt = .ok u ∧ u.rol = rol) ∧
    (¬ (rol = "user" ∨ rol = "supervisor" ∨ rol = "admin") →
      Usuario.init nombre nombre_visible rol password none none freshId now salt =
        .error (.validationError "El rol debe ser user, supervisor o admin.")) ∧
    Usuario.init "" nombre_visible rol password none none freshId now salt =
      .error (.validationError "El nombre de usuario no puede estar vacío.") := by
  refine ⟨?_, ?_, ?_⟩
  · intro hr
    have hr' : ¬ (rol ≠ "user" ∧ rol ≠ "supervisor" ∧ rol ≠ "admin") := by
      rcases hr with h | h | h <;> simp [h]
    cases password with
    | none =>
      refine ⟨{ id := freshId, nombre := nombre, nombre_visible := nombre_visible,
                rol := rol, fecha_creacion := now, password_hash := none }, ?_, rfl⟩
      simp [Usuario.init, hn, hr']
    | some p =>
      have hpe : p ≠ "" := hp p rfl
      refine ⟨{ id := freshId, nombre := nombre, nombre_visible := nombre_visible,
                rol := rol, fecha_creacion := now,
                password_hash := some (bcrypt.hashpw p salt) }, ?_, rfl⟩
      simp [Usuario.init, Usuario.cambiar_password, hn, hr', hpe]
  · intro hr
    have hr' : rol ≠ "user" ∧ rol ≠ "supervisor" ∧ rol ≠ "admin" := by
      push_neg at hr
      exact hr
    simp [Usuario.init, hn, hr']
  · simp [Usuario.init]

/-- C6 witness: the theorem applied at concrete inputs. -/
theorem usuario_init_validation_spec_witness :
    Usuario.init "alice" "Alice" "root" none none none "uid-1" 5 7 =
      .error (.validationError "El rol debe ser user, supervisor o admin.") ∧
    Usuario.init "" "Alice" "root" none none none "uid-1" 5 7 =
      .error (.validationError "El nombre de usuario no puede estar vacío.") := by
  have h := usuario_init_validation_spec "alice" "Alice" "root" none "uid-1" 5 7
    (by decide) (fun p hp => by cases hp)
  exact ⟨h.2.1 (by decide), h.2.2⟩

/-- C8: after a successful `cambiar_password p` (the credential `set` with a
non-empty plaintext), `verificar_password p` returns true and
`verificar_password p'` returns false for every different plaintext. -/
theorem password_set_verify_spec (u u' : Usuario) (p p' : String) (salt : Nat)
    (hp : p ≠ "") (hset : u.cambiar_password p salt = .ok u') :
    u'.verificar_password p = .ok true ∧
    (p' ≠ p → u'.verificar_password p' = .ok false) := by
  rw [Usuario.cambiar_password, if_neg hp] at hset
  injection hset with h
  subst h
  constructor
  · simp [Usuario.verificar_password, bcrypt.checkpw, bcrypt.hashpw]
  · intro hne
    simp [Usuario.verificar_password, bcrypt.checkpw, bcrypt.hashpw, hne]

/-- C8 witness: the theorem applied to a concrete user and passwords. -/
theorem password_set_verify_spec_witness :
    Usuario.verificar_password
      { id := "i1", nombre := "jdoe", nombre_visible := "John", rol := "user",
        fecha_creacion := 0, password_hash := some (bcrypt.hashpw "secreta123" 3) }
      "secreta123" = .ok true ∧
    Usuario.verificar_password
      { id := "i1", nombre := "jdoe", nombre_visible := "John", rol := "user",
        fecha_creacion := 0, password_hash := some (bcrypt.hashpw "secreta123" 3) }
      "otra" = .ok false := by
  have h := password_set_verify_spec
    { id := "i1", nombre := "jdoe", nombre_visible := "John", rol := "user",
      fecha_creacion := 0, password_hash := none }
    { id := "i1", nombre := "jdoe", nombre_visible := "John", rol := "user",
      fecha_creacion := 0, password_hash := some (bcrypt.hashpw "secreta123" 3) }
    "secreta123" "otra" 3 (by decide) (by rfl)
  exact ⟨h.1, h.2 (by decide)⟩

/-- C7: serializing a `Usuario` with `to_dict` and deserializing with
`from_dict` yields exactly the same entity — identical id, name, display
name, role, stored hash-or-null and creation date — and hence identical
credential verification behaviour; deserialization performs no re-hashing
(the constructor is invoked with no password). -/
theorem usuario_roundtrip_spec (u : Usuario) (freshId : String) (now salt : Nat)
    (hn : u.nombre ≠ "") (hid : u.id ≠ "")
    (hr : u.rol = "user" ∨ u.rol = "supervisor" ∨ u.rol = "admin") :
    Usuario.from_dict u.to_dict freshId now salt = .ok u ∧
    (∀ p w, Usuario.from_dict u.to_dict freshId now salt = .ok w →
      w.verificar_password p = u.verificar_password p) := by
  have hmain : Usuario.from_dict u.to_dict freshId now salt = .ok u := by
    obtain ⟨i, n, nv, r, f, ph⟩ := u
    rcases hr with h | h | h <;> subst h <;> cases ph <;>
      simp_all [Usuario.from_dict, Usuario.to_dict, Usuario.init]
  refine ⟨hmain, fun p w hw => ?_⟩
  rw [hmain] at hw
  injection hw with h
  rw [h]

/-- C7 witness: round trip of a concrete admin user carrying a stored
credential hash. -/
theorem usuario_roundtrip_spec_witness :
    Usuario.from_dict (Usuario.to_dict
      { id := "uid-7", nombre := "admin", nombre_visible := "Root", rol := "admin",
        fecha_creacion := 11, password_hash := some (bcrypt.hashpw "admin123" 9) })
      "fresh" 0 0 =
    .ok { id := "uid-7", nombre := "admin", nombre_visible := "Root", rol := "admin",
          fecha_creacion := 11,
          password_hash := some (bcrypt.hashpw "admin123" 9) } := by
  exact (usuario_roundtrip_spec
    { id := "uid-7", nombre := "admin", nombre_visible := "Root", rol := "admin",
      fecha_creacion := 11, password_hash := some (bcrypt.hashpw "admin123" 9) }
    "fresh" 0 0 (by decide) (by decide) (by simp)).1

/-- C1: `autenticar_usuario` fails with the NotFoundError value when no user
of the name exists, with the AuthError value when a credential is set but
the password does not match, and with the credential StateError value
(propagated from `verificar_password`) when no credential is set; the three
error values are pairwise distinct, so the caller can separate the
"must set password" condition from "wrong password" by the error alone. -/
theorem autenticar_error_kinds_spec (g : Gestor) (nombre password : String) :
    (PyDict.get g.usuarios nombre = none →
      (g.autenticar_usuario nombre password).result =
        .error (.notFoundError "Usuario inexistente.")) ∧
    (∀ u h, PyDict.get g.usuarios nombre = some u →
      u.password_hash = some h → bcrypt.checkpw password h = false →
      (g.autenticar_usuario nombre password).result =
        .error (.authError "Contraseña incorrecta.")) ∧
    (∀ u, PyDict.get g.usuarios nombre = some u →
      u.password_hash = none →
      (g.autenticar_usuario nombre password).result =
        .error (.stateError "El usuario no tiene contraseña configurada.")) ∧
    (Err.notFoundError "Usuario inexistente." ≠
        Err.authError "Contraseña incorrecta." ∧
      Err.authError "Contraseña incorrecta." ≠
        Err.stateError "El usuario no tiene contraseña configurada." ∧
      Err.notFoundError "Usuario inexistente." ≠
        Err.stateError "El usuario no tiene contraseña configurada.") := by
  refine ⟨?_, ?_, ?_, by decide⟩
  · intro hget
    simp [Gestor.autenticar_usuario, hget]
  · intro u h hget hhash hchk
    simp [Gestor.autenticar_usuario, Usuario.verificar_password, hget, hhash, hchk]
  · intro u hget hhash
    simp [Gestor.autenticar_usuario, Usuario.verificar_password, hget, hhash]

/-- C1 witness: a two-user state — "bob" without a credential, "carol" with
one — probed with a missing name, a wrong password and a no-credential
login. -/
theorem autenticar_error_kinds_spec_witness :
    (Gestor.autenticar_usuario
      { usuarios :=
          [("bob", { id := "b", nombre := "bob", nombre_visible := "B",
                     rol := "user", fecha_creacion := 0, password_hash := none }),
           ("carol", { id := "c", nombre := "carol", nombre_visible := "C",
                       rol := "user", fecha_creacion := 0,
                       password_hash := some (bcrypt.hashpw "pw" 1) })],
        tareas := [], historico := [] } "dave" "x").result =
      .error (.notFoundError "Usuario inexistente.") ∧
    (Gestor.autenticar_usuario
      { usuarios :=
          [("bob", { id := "b", nombre := "bob", nombre_visible := "B",
                     rol := "user", fecha_creacion := 0, password_hash := none }),
           ("carol", { id := "c", nombre := "carol", nombre_visible := "C",
                       rol := "user", fecha_creacion := 0,
                       password_hash := some (bcrypt.hashpw "pw" 1) })],
        tareas := [], historico := [] } "carol" "wrong").result =
      .error (.authError "Contraseña incorrecta.") ∧
    (Gestor.autenticar_usuario
      { usuarios :=
          [("bob", { id := "b", nombre := "bob", nombre_visible := "B",
                     rol := "user", fecha_creacion := 0, password_hash := none }),
           ("carol", { id := "c", nombre := "carol", nombre_visible := "C",
                       rol := "user", fecha_creacion := 0,
                       password_hash := some (bcrypt.hashpw "pw" 1) })],
        tareas := [], historico := [] } "bob" "x").result =
      .error (.stateError "El usuario no tiene contraseña configurada.") := by
  refine ⟨?_, ?_, ?_⟩
  · exact (autenticar_error_kinds_spec _ "dave" "x").1 (by decide)
  · exact (autenticar_error_kinds_spec _ "carol" "wrong").2.1
      { id := "c", nombre := "carol", nombre_visible := "C", rol := "user",
        fecha_creacion := 0, password_hash := some (bcrypt.hashpw "pw" 1) }
      (bcrypt.hashpw "pw" 1) (by decide) (by decide) (by decide)
  · exact (autenticar_error_kinds_spec _ "bob" "x").2.2.1
      { id := "b", nombre := "bob", nombre_visible := "B", rol := "user",
        fecha_creacion := 0, password_hash := none }
      (by decide) (by decide)

/-- C3: when a user of the name already exists, `crear_usuario` fails with
the ConflictError, performs no persistence write, and leaves the whole
users collection — in particular the already-stored user — unchanged. -/
theorem crear_usuario_duplicado_spec (g : Gestor)
    (nombre nombre_visible rol : String) (password : Option String)
    (freshId : String) (now salt : Nat) (u : Usuario)
    (hget : PyDict.get g.usuarios nombre = some u) :
    (g.crear_usuario nombre nombre_visible rol password freshId now salt).gestor
      = g ∧
    (g.crear_usuario nombre nombre_visible rol password freshId now salt).writes
      = [] ∧
    (g.crear_usuario nombre nombre_visible rol password freshId now salt).result
      = .error (.conflictError "Ya existe un usuario con ese nombre.") ∧
    PyDict.get (g.crear_usuario nombre nombre_visible rol password freshId
      now salt).gestor.usuarios nombre = some u := by
  refine ⟨?_, ?_, ?_, ?_⟩ <;> simp [Gestor.crear_usuario, hget]

/-- C3 witness: creating "alice" twice; the second call fails with the
ConflictError and the stored user is untouched. -/
theorem crear_usuario_duplicado_spec_witness :
    (Gestor.crear_usuario
      { usuarios := [("alice",
          { id := "a1", nombre := "alice", nombre_visible := "Alice",
            rol := "user", fecha_creacion := 1, password_hash := none })],
        tareas := [], historico := [] }
      "alice" "Alicia" "admin" none "a2" 2 3).result =
      .error (.conflictError "Ya existe un usuario con ese nombre.") ∧
    PyDict.get (Gestor.crear_usuario
      { usuarios := [("alice",
          { id := "a1", nombre := "alice", nombre_visible := "Alice",
            rol := "user", fecha_creacion := 1, password_hash := none })],
        tareas := [], historico := [] }
      "alice" "Alicia" "admin" none "a2" 2 3).gestor.usuarios "alice" =
      some { id := "a1", nombre := "alice", nombre_visible := "Alice",
             rol := "user", fecha_creacion := 1, password_hash := none } := by
  have h := crear_usuario_duplicado_spec
    { usuarios := [("alice",
        { id := "a1", nombre := "alice", nombre_visible := "Alice",
          rol := "user", fecha_creacion := 1, password_hash := none })],
      tareas := [], historico := [] }
    "alice" "Alicia" "admin" none "a2" 2 3
    { id := "a1", nombre := "alice", nombre_visible := "Alice",
      rol := "user", fecha_creacion := 1, password_hash := none }
    (by decide)
  exact ⟨h.2.2.1, h.2.2.2⟩

theorem Usuario.rol_of_es_admin {u : Usuario} (h : u.es_admin = true) :
    u.rol = "admin" := by
  simpa [Usuario.es_admin] using h

theorem Usuario.es_supervisor_of_es_admin {u : Usuario} (h : u.es_admin = true) :
    u.es_supervisor = false := by
  have hr := Usuario.rol_of_es_admin h
  simp [Usuario.es_supervisor, hr]

/-- C2: `asignar_usuario_tarea` fails with the PermissionError when the
actor is neither admin nor supervisor; fails with the NotFoundError when
the referenced user or task is missing; fails with the PermissionError when
the actor is a supervisor and the target user's role is not "user"; and
otherwise (admin actor, or supervisor actor with a "user"-role target) adds
the user to the task's assigned set and persists the snapshot. -/
theorem asignar_usuario_tarea_spec (g : Gestor) (actor : Usuario)
    (nu nt : String) :
    (actor.es_admin = false → actor.es_supervisor = false →
      g.asignar_usuario_tarea actor nu nt =
        ⟨g, [], .error (.permissionError "No tiene permisos para asignar tareas.")⟩) ∧
    ((actor.es_admin = true ∨ actor.es_supervisor = true) →
      (PyDict.get g.usuarios nu = none ∨ PyDict.get g.tareas nt = none) →
      g.asignar_usuario_tarea actor nu nt =
        ⟨g, [], .error (.notFoundError "Usuario o tarea inexistente.")⟩) ∧
    (∀ usuario tarea, actor.es_supervisor = true →
      PyDict.get g.usuarios nu = some usuario →
      PyDict.get g.tareas nt = some tarea → usuario.rol ≠ "user" →
      g.asignar_usuario_tarea actor nu nt =
        ⟨g, [], .error (.permissionError
          "Un supervisor solo puede asignar tareas a usuarios comunes.")⟩) ∧
    (∀ usuario tarea, PyDict.get g.usuarios nu = some usuario →
      PyDict.get g.tareas nt = some tarea →
      (actor.es_admin = true ∨
        (actor.es_supervisor = true ∧ usuario.rol = "user")) →
      g.asignar_usuario_tarea actor nu nt =
        ⟨{ g with tareas := PyDict.set g.tareas nt (tarea.agregar_usuario usuario) },
         Gestor.guardar_todo
           { g with tareas := PyDict.set g.tareas nt (tarea.agregar_usuario usuario) },
         .ok ()⟩ ∧
      (tarea.agregar_usuario usuario).usuarios_asignados.any
        (fun v => v.id == usuario.id) = true) := by
  refine ⟨?_, ?_, ?_, ?_⟩
  · intro ha hs
    simp [Gestor.asignar_usuario_tarea, ha, hs]
  · intro hrole hmiss
    have hcond : (actor.es_admin || actor.es_supervisor) = true := by
      rcases hrole with h | h <;> simp [h]
    rcases hmiss with h | h
    · cases ht : PyDict.get g.tareas nt <;>
        simp [Gestor.asignar_usuario_tarea, hcond, h, ht]
    · cases hu : PyDict.get g.usuarios nu <;>
        simp [Gestor.asignar_usuario_tarea, hcond, h, hu]
  · intro usuario tarea hs hu ht hrol
    have hcond : (actor.es_admin || actor.es_supervisor) = true := by simp [hs]
    simp [Gestor.asignar_usuario_tarea, hcond, hu, ht, hs, hrol]
  · intro usuario tarea hu ht hok
    have hmem : (tarea.agregar_usuario usuario).usuarios_asignados.any
        (fun v => v.id == usuario.id) = true := by
      by_cases hin : tarea.usuarios_asignados.any (fun v => v.id == usuario.id) = true
      · simp [Tarea.agregar_usuario, hin]
      · simp only [Tarea.agregar_usuario]
        rw [if_neg (by simpa using hin)]
        simp
    rcases hok with ha | ⟨hs, hrol⟩
    · have hs' := Usuario.es_supervisor_of_es_admin ha
      have hcond : (actor.es_admin || actor.es_supervisor) = true := by simp [ha]
      exact ⟨by simp [Gestor.asignar_usuario_tarea, hcond, hu, ht, hs', ha], hmem⟩
    · have hcond : (actor.es_admin || actor.es_supervisor) = true := by simp [hs]
      exact ⟨by simp [Gestor.asignar_usuario_tarea, hcond, hu, ht, hrol], hmem⟩

/-- C2 witness: a supervisor assigning to a "user"-role target succeeds;
assigning to an admin target fails with the PermissionError; a plain user
as actor fails with the PermissionError. -/
theorem asignar_usuario_tarea_spec_witness :
    (Gestor.asignar_usuario_tarea
      { usuarios := [("bob", { id := "b", nombre := "bob", nombre_visible := "B", rol := "user", fecha_creacion := 0, password_hash := none }), ("carol", { id := "c", nombre := "carol", nombre_visible := "C", rol := "admin", fecha_creacion := 0, password_hash := none })], tareas := [("t1", { nombre := "t1", descripcion := "d", estado := "pendiente", fecha_creacion := 0, usuarios_asignados := [], comentarios := [] })], historico := [] }
      { id := "s", nombre := "sup", nombre_visible := "S", rol := "supervisor", fecha_creacion := 0, password_hash := none } "bob" "t1").result = .ok () ∧
    Gestor.asignar_usuario_tarea
      { usuarios := [("bob", { id := "b", nombre := "bob", nombre_visible := "B", rol := "user", fecha_creacion := 0, password_hash := none }), ("carol", { id := "c", nombre := "carol", nombre_visible := "C", rol := "admin", fecha_creacion := 0, password_hash := none })], tareas := [("t1", { nombre := "t1", descripcion := "d", estado := "pendiente", fecha_creacion := 0, usuarios_asignados := [], comentarios := [] })], historico := [] }
      { id := "s", nombre := "sup", nombre_visible := "S", rol := "supervisor", fecha_creacion := 0, password_hash := none } "carol" "t1" =
      ⟨{ usuarios := [("bob", { id := "b", nombre := "bob", nombre_visible := "B", rol := "user", fecha_creacion := 0, password_hash := none }), ("carol", { id := "c", nombre := "carol", nombre_visible := "C", rol := "admin", fecha_creacion := 0, password_hash := none })], tareas := [("t1", { nombre := "t1", descripcion := "d", estado := "pendiente", fecha_creacion := 0, usuarios_asignados := [], comentarios := [] })], historico := [] }, [],
       .error (.permissionError
         "Un supervisor solo puede asignar tareas a usuarios comunes.")⟩ ∧
    Gestor.asignar_usuario_tarea
      { usuarios := [("bob", { id := "b", nombre := "bob", nombre_visible := "B", rol := "user", fecha_creacion := 0, password_hash := none }), ("carol", { id := "c", nombre := "carol", nombre_visible := "C", rol := "admin", fecha_creacion := 0, password_hash := none })], tareas := [("t1", { nombre := "t1", descripcion := "d", estado := "pendiente", fecha_creacion := 0, usuarios_asignados := [], comentarios := [] })], historico := [] }
      { id := "b", nombre := "bob", nombre_visible := "B", rol := "user", fecha_creacion := 0, password_hash := none } "bob" "t1" =
      ⟨{ usuarios := [("bob", { id := "b", nombre := "bob", nombre_visible := "B", rol := "user", fecha_creacion := 0, password_hash := none }), ("carol", { id := "c", nombre := "carol", nombre_visible := "C", rol := "admin", fecha_creacion := 0, password_hash := none })], tareas := [("t1", { nombre := "t1", descripcion := "d", estado := "pendiente", fecha_creacion := 0, usuarios_asignados := [], comentarios := [] })], historico := [] }, [],
       .error (.permissionError "No tiene permisos para asignar tareas.")⟩ := by
  refine ⟨?_, ?_, ?_⟩
  · have h := (asignar_usuario_tarea_spec
      { usuarios := [("bob", { id := "b", nombre := "bob", nombre_visible := "B", rol := "user", fecha_creacion := 0, password_hash := none }), ("carol", { id := "c", nombre := "carol", nombre_visible := "C", rol := "admin", fecha_creacion := 0, password_hash := none })], tareas := [("t1", { nombre := "t1", descripcion := "d", estado := "pendiente", fecha_creacion := 0, usuarios_asignados := [], comentarios := [] })], historico := [] }
      { id := "s", nombre := "sup", nombre_visible := "S", rol := "supervisor", fecha_creacion := 0, password_hash := none } "bob" "t1").2.2.2
      { id := "b", nombre := "bob", nombre_visible := "B", rol := "user", fecha_creacion := 0, password_hash := none }
      { nombre := "t1", descripcion := "d", estado := "pendiente", fecha_creacion := 0, usuarios_asignados := [], comentarios := [] }
      (by decide) (by decide) (Or.inr ⟨by decide, by decide⟩)
    rw [h.1]
  · exact (asignar_usuario_tarea_spec
      { usuarios := [("bob", { id := "b", nombre := "bob", nombre_visible := "B", rol := "user", fecha_creacion := 0, password_hash := none }), ("carol", { id := "c", nombre := "carol", nombre_visible := "C", rol := "admin", fecha_creacion := 0, password_hash := none })], tareas := [("t1", { nombre := "t1", descripcion := "d", estado := "pendiente", fecha_creacion := 0, usuarios_asignados := [], comentarios := [] })], historico := [] }
      { id := "s", nombre := "sup", nombre_visible := "S", rol := "supervisor", fecha_creacion := 0, password_hash := none } "carol" "t1").2.2.1
      { id := "c", nombre := "carol", nombre_visible := "C", rol := "admin", fecha_creacion := 0, password_hash := none }
      { nombre := "t1", descripcion := "d", estado := "pendiente", fecha_creacion := 0, usuarios_asignados := [], comentarios := [] }
      (by decide) (by decide) (by decide) (by decide)
  · exact (asignar_usuario_tarea_spec
      { usuarios := [("bob", { id := "b", nombre := "bob", nombre_visible := "B", rol := "user", fecha_creacion := 0, password_hash := none }), ("carol", { id := "c", nombre := "carol", nombre_visible := "C", rol := "admin", fecha_creacion := 0, password_hash := none })], tareas := [("t1", { nombre := "t1", descripcion := "d", estado := "pendiente", fecha_creacion := 0, usuarios_asignados := [], comentarios := [] })], historico := [] }
      { id := "b", nombre := "bob", nombre_visible := "B", rol := "user", fecha_creacion := 0, password_hash := none } "bob" "t1").1 (by decide) (by decide)

/-- C9: in `resetear_password_usuario`, `crear_tarea` and
`asignar_usuario_tarea` the authorization gate is evaluated first — an
unauthorized actor receives the PermissionError with no hypothesis on
whether the target exists or the name is a duplicate — and every error
outcome of these operations leaves both collections unchanged and performs
no persistence write. -/
theorem authz_before_existence_spec (g : Gestor) (a actor : Usuario)
    (n nombre descripcion nu nt : String) (now : Nat) :
    (a.es_admin = false →
      g.resetear_password_usuario a n =
        ⟨g, [], .error (.permissionError "Solo un admin puede resetear contraseñas.")⟩) ∧
    (actor.es_admin = false → actor.es_supervisor = false →
      g.crear_tarea nombre descripcion actor now =
        ⟨g, [], .error (.permissionError
          "Solo administradores o supervisores pueden crear tareas.")⟩) ∧
    (actor.es_admin = false → actor.es_supervisor = false →
      g.asignar_usuario_tarea actor nu nt =
        ⟨g, [], .error (.permissionError "No tiene permisos para asignar tareas.")⟩) ∧
    (∀ e, (g.resetear_password_usuario a n).result = .error e →
      (g.resetear_password_usuario a n).gestor = g ∧
      (g.resetear_password_usuario a n).writes = []) ∧
    (∀ e, (g.crear_tarea nombre descripcion actor now).result = .error e →
      (g.crear_tarea nombre descripcion actor now).gestor = g ∧
      (g.crear_tarea nombre descripcion actor now).writes = []) ∧
    (∀ e, (g.asignar_usuario_tarea actor nu nt).result = .error e →
      (g.asignar_usuario_tarea actor nu nt).gestor = g ∧
      (g.asignar_usuario_tarea actor nu nt).writes = []) := by
  refine ⟨?_, ?_, ?_, ?_, ?_, ?_⟩
  · intro ha
    simp [Gestor.resetear_password_usuario, ha]
  · intro ha hs
    simp [Gestor.crear_tarea, ha, hs]
  · intro ha hs
    simp [Gestor.asignar_usuario_tarea, ha, hs]
  · intro e he
    by_cases ha : a.es_admin = true
    · cases hget : PyDict.get g.usuarios n with
      | none => simp [Gestor.resetear_password_usuario, ha, hget]
      | some u =>
        simp [Gestor.resetear_password_usuario, ha, hget] at he
    · have ha' : a.es_admin = false := by
        cases hb : a.es_admin
        · rfl
        · exact absurd hb ha
      simp [Gestor.resetear_password_usuario, ha']
  · intro e he
    by_cases hperm : (actor.es_admin || actor.es_supervisor) = true
    · cases hget : PyDict.get g.tareas nombre with
      | some t => simp [Gestor.crear_tarea, hperm, hget]
      | none =>
        cases hinit : Tarea.init nombre descripcion now with
        | error e' => simp [Gestor.crear_tarea, hperm, hget, hinit]
        | ok t => simp [Gestor.crear_tarea, hperm, hget, hinit] at he
    · simp [Gestor.crear_tarea, hperm]
  · intro e he
    by_cases hperm : (actor.es_admin || actor.es_supervisor) = true
    · cases hu : PyDict.get g.usuarios nu with
      | none => simp [Gestor.asignar_usuario_tarea, hperm, hu]
      | some usuario =>
        cases htk : PyDict.get g.tareas nt with
        | none => simp [Gestor.asignar_usuario_tarea, hperm, hu, htk]
        | some tarea =>
          by_cases hs : actor.es_supervisor = true
          · by_cases hrol : usuario.rol = "user"
            · simp [Gestor.asignar_usuario_tarea, hperm, hu, htk, hs, hrol] at he
            · simp [Gestor.asignar_usuario_tarea, hperm, hu, htk, hs, hrol]
          · have hs' : actor.es_supervisor = false := by
              cases hb : actor.es_supervisor
              · rfl
              · exact absurd hb hs
            have ha : actor.es_admin = true := by simpa [hs'] using hperm
            simp [Gestor.asignar_usuario_tarea, hperm, hu, htk, hs', ha] at he
    · simp [Gestor.asignar_usuario_tarea, hperm]

/-- C9 witness: a plain user resetting a missing user's password, creating
a task whose name is already taken, and assigning with both referents
missing — each receives the PermissionError with the state untouched. -/
theorem authz_before_existence_spec_witness :
    Gestor.resetear_password_usuario
      { usuarios := [("bob", { id := "b", nombre := "bob", nombre_visible := "B", rol := "user", fecha_creacion := 0, password_hash := none })], tareas := [("t1", { nombre := "t1", descripcion := "d", estado := "pendiente", fecha_creacion := 0, usuarios_asignados := [], comentarios := [] })], historico := [] }
      { id := "b", nombre := "bob", nombre_visible := "B", rol := "user", fecha_creacion := 0, password_hash := none } "ghost" =
      ⟨{ usuarios := [("bob", { id := "b", nombre := "bob", nombre_visible := "B", rol := "user", fecha_creacion := 0, password_hash := none })], tareas := [("t1", { nombre := "t1", descripcion := "d", estado := "pendiente", fecha_creacion := 0, usuarios_asignados := [], comentarios := [] })], historico := [] }, [],
       .error (.permissionError "Solo un admin puede resetear contraseñas.")⟩ ∧
    Gestor.crear_tarea
      { usuarios := [("bob", { id := "b", nombre := "bob", nombre_visible := "B", rol := "user", fecha_creacion := 0, password_hash := none })], tareas := [("t1", { nombre := "t1", descripcion := "d", estado := "pendiente", fecha_creacion := 0, usuarios_asignados := [], comentarios := [] })], historico := [] }
      "t1" "d" { id := "b", nombre := "bob", nombre_visible := "B", rol := "user", fecha_creacion := 0, password_hash := none } 9 =
      ⟨{ usuarios := [("bob", { id := "b", nombre := "bob", nombre_visible := "B", rol := "user", fecha_creacion := 0, password_hash := none })], tareas := [("t1", { nombre := "t1", descripcion := "d", estado := "pendiente", fecha_creacion := 0, usuarios_asignados := [], comentarios := [] })], historico := [] }, [],
       .error (.permissionError
         "Solo administradores o supervisores pueden crear tareas.")⟩ ∧
    Gestor.asignar_usuario_tarea
      { usuarios := [("bob", { id := "b", nombre := "bob", nombre_visible := "B", rol := "user", fecha_creacion := 0, password_hash := none })], tareas := [("t1", { nombre := "t1", descripcion := "d", estado := "pendiente", fecha_creacion := 0, usuarios_asignados := [], comentarios := [] })], historico := [] }
      { id := "b", nombre := "bob", nombre_visible := "B", rol := "user", fecha_creacion := 0, password_hash := none } "ghost" "missing" =
      ⟨{ usuarios := [("bob", { id := "b", nombre := "bob", nombre_visible := "B", rol := "user", fecha_creacion := 0, password_hash := none })], tareas := [("t1", { nombre := "t1", descripcion := "d", estado := "pendiente", fecha_creacion := 0, usuarios_asignados := [], comentarios := [] })], historico := [] }, [],
       .error (.permissionError "No tiene permisos para asignar tareas.")⟩ := by
  have h := authz_before_existence_spec
    { usuarios := [("bob", { id := "b", nombre := "bob", nombre_visible := "B", rol := "user", fecha_creacion := 0, password_hash := none })], tareas := [("t1", { nombre := "t1", descripcion := "d", estado := "pendiente", fecha_creacion := 0, usuarios_asignados := [], comentarios := [] })], historico := [] }
    { id := "b", nombre := "bob", nombre_visible := "B", rol := "user", fecha_creacion := 0, password_hash := none }
    { id := "b", nombre := "bob", nombre_visible := "B", rol := "user", fecha_creacion := 0, password_hash := none }
    "ghost" "t1" "d" "ghost" "missing" 9
  exact ⟨h.1 (by decide), h.2.1 (by decide) (by decide),
    h.2.2.1 (by decide) (by decide)⟩

/-- C5: on a present, pending task `finalizar_tarea` appends exactly one
entry — the finished task's detail snapshot — to the archive, and the
archive write precedes the live-snapshot writes in the emitted trace; a
later `eliminar_tarea` of the same task succeeds, removes it from the live
map and leaves the archive contents unchanged. -/
theorem finalizar_archivo_spec (g : Gestor) (nt : String) (tarea : Tarea)
    (hget : PyDict.get g.tareas nt = some tarea)
    (hpend : tarea.estado ≠ "finalizada") :
    g.finalizar_tarea nt =
      ⟨{ g with
           tareas := PyDict.set g.tareas nt { tarea with estado := "finalizada" },
           historico := g.historico ++
             [Tarea.obtener_detalle { tarea with estado := "finalizada" }] },
       .escribirHistorico (g.historico ++
           [Tarea.obtener_detalle { tarea with estado := "finalizada" }]) ::
         Gestor.guardar_todo { g with
           tareas := PyDict.set g.tareas nt { tarea with estado := "finalizada" },
           historico := g.historico ++
             [Tarea.obtener_detalle { tarea with estado := "finalizada" }] },
       .ok ()⟩ ∧
    ((g.finalizar_tarea nt).gestor.eliminar_tarea nt).result = .ok () ∧
    PyDict.get ((g.finalizar_tarea nt).gestor.eliminar_tarea nt).gestor.tareas
      nt = none ∧
    ((g.finalizar_tarea nt).gestor.eliminar_tarea nt).gestor.historico =
      g.historico ++ [Tarea.obtener_detalle { tarea with estado := "finalizada" }] := by
  have h1 : g.finalizar_tarea nt =
      ⟨{ g with
           tareas := PyDict.set g.tareas nt { tarea with estado := "finalizada" },
           historico := g.historico ++
             [Tarea.obtener_detalle { tarea with estado := "finalizada" }] },
       .escribirHistorico (g.historico ++
           [Tarea.obtener_detalle { tarea with estado := "finalizada" }]) ::
         Gestor.guardar_todo { g with
           tareas := PyDict.set g.tareas nt { tarea with estado := "finalizada" },
           historico := g.historico ++
             [Tarea.obtener_detalle { tarea with estado := "finalizada" }] },
       .ok ()⟩ := by
    simp [Gestor.finalizar_tarea, Tarea.cambiar_estado, hget, hpend]
  have hget2 : PyDict.get (g.finalizar_tarea nt).gestor.tareas nt =
      some { tarea with estado := "finalizada" } := by
    rw [h1]
    simp [PyDict.get_set]
  refine ⟨h1, ?_, ?_, ?_⟩
  · simp [Gestor.eliminar_tarea, hget2]
  · simp [Gestor.eliminar_tarea, hget2, PyDict.get_erase]
  · simp [Gestor.eliminar_tarea, hget2]
    rw [h1]

/-- C5 witness: finishing the pending task "t1" then deleting it — the
delete succeeds, the task leaves the live map, and the archive keeps
exactly the one detail snapshot recorded at finish time. -/
theorem finalizar_archivo_spec_witness :
    ((Gestor.finalizar_tarea { usuarios := [], tareas := [("t1", { nombre := "t1", descripcion := "d", estado := "pendiente", fecha_creacion := 4, usuarios_asignados := [], comentarios := [] })], historico := [] } "t1").gestor.eliminar_tarea "t1").result =
      .ok () ∧
    PyDict.get ((Gestor.finalizar_tarea { usuarios := [], tareas := [("t1", { nombre := "t1", descripcion := "d", estado := "pendiente", fecha_creacion := 4, usuarios_asignados := [], comentarios := [] })], historico := [] }
      "t1").gestor.eliminar_tarea "t1").gestor.tareas "t1" = none ∧
    ((Gestor.finalizar_tarea { usuarios := [], tareas := [("t1", { nombre := "t1", descripcion := "d", estado := "pendiente", fecha_creacion := 4, usuarios_asignados := [], comentarios := [] })], historico := [] } "t1").gestor.eliminar_tarea
      "t1").gestor.historico =
      [Tarea.obtener_detalle
        { nombre := "t1", descripcion := "d", estado := "finalizada",
          fecha_creacion := 4, usuarios_asignados := [], comentarios := [] }] := by
  have h := finalizar_archivo_spec
    { usuarios := [], tareas := [("t1", { nombre := "t1", descripcion := "d", estado := "pendiente", fecha_creacion := 4, usuarios_asignados := [], comentarios := [] })], historico := [] }
    "t1"
    { nombre := "t1", descripcion := "d", estado := "pendiente", fecha_creacion := 4, usuarios_asignados := [], comentarios := [] }
    (by decide) (by decide)
  exact ⟨h.2.1, h.2.2.1, h.2.2.2⟩

theorem Tarea.agregar_usuario_estado (t : Tarea) (u : Usuario) :
    (t.agregar_usuario u).estado = t.estado := by
  by_cases h : t.usuarios_asignados.any (fun v => v.id == u.id) = true <;>
    simp [Tarea.agregar_usuario, h]

theorem Tarea.agregar_usuario_nombre (t : Tarea) (u : Usuario) :
    (t.agregar_usuario u).nombre = t.nombre := by
  by_cases h : t.usuarios_asignados.any (fun v => v.id == u.id) = true <;>
    simp [Tarea.agregar_usuario, h]

theorem crear_usuario_tareas_unchanged (g : Gestor)
    (n v r : String) (p : Option String) (fid : String) (now salt : Nat) :
    (g.crear_usuario n v r p fid now salt).gestor.tareas = g.tareas := by
  cases hd : PyDict.get g.usuarios n with
  | some u => simp [Gestor.crear_usuario, hd]
  | none =>
    cases hi : Usuario.init n v r p none none fid now salt with
    | error e => simp [Gestor.crear_usuario, hd, hi]
    | ok u => simp [Gestor.crear_usuario, hd, hi]

theorem autenticar_gestor_unchanged (g : Gestor) (n p : String) :
    (g.autenticar_usuario n p).gestor = g := by
  cases hu : PyDict.get g.usuarios n with
  | none => simp [Gestor.autenticar_usuario, hu]
  | some usuario =>
    cases hv : usuario.verificar_password p with
    | error e => simp [Gestor.autenticar_usuario, hu, hv]
    | ok b => cases b <;> simp [Gestor.autenticar_usuario, hu, hv]

theorem resetear_tareas_unchanged (g : Gestor) (a : Usuario) (n : String) :
    (g.resetear_password_usuario a n).gestor.tareas = g.tareas := by
  by_cases ha : a.es_admin = true
  · cases hu : PyDict.get g.usuarios n with
    | none => simp [Gestor.resetear_password_usuario, ha, hu]
    | some u => simp [Gestor.resetear_password_usuario, ha, hu]
  · simp [Gestor.resetear_password_usuario, ha]

/-- After any single service operation, a task stored under a key keeps the
status "finalizada" if it had it before (it can only disappear, never go
back to pending). -/
theorem step_preserves_finalizada (g : Gestor) (op : Op) (k : String)
    (t t' : Tarea)
    (hget : PyDict.get g.tareas k = some t) (hfin : t.estado = "finalizada")
    (hget' : PyDict.get (g.step op).tareas k = some t') :
    t'.estado = "finalizada" := by
  cases op with
  | crearUsuario n v r p fid now salt =>
    simp only [Gestor.step] at hget'
    rw [crear_usuario_tareas_unchanged, hget] at hget'
    injection hget' with h
    exact h ▸ hfin
  | autenticar n p =>
    simp only [Gestor.step] at hget'
    rw [autenticar_gestor_unchanged, hget] at hget'
    injection hget' with h
    exact h ▸ hfin
  | resetearPassword a n =>
    simp only [Gestor.step] at hget'
    rw [resetear_tareas_unchanged, hget] at hget'
    injection hget' with h
    exact h ▸ hfin
  | crearTarea n d a now =>
    simp only [Gestor.step] at hget'
    by_cases hperm : (a.es_admin || a.es_supervisor) = true
    · cases hdup : PyDict.get g.tareas n with
      | some t0 =>
        simp [Gestor.crear_tarea, hperm, hdup, hget] at hget'
        exact hget' ▸ hfin
      | none =>
        cases hinit : Tarea.init n d now with
        | error e =>
          simp [Gestor.crear_tarea, hperm, hdup, hinit, hget] at hget'
          exact hget' ▸ hfin
        | ok t0 =>
          simp [Gestor.crear_tarea, hperm, hdup, hinit, PyDict.get_set] at hget'
          by_cases hk : k = n
          · rw [hk] at hget
            rw [hget] at hdup
            cases hdup
          · rw [if_neg hk, hget] at hget'
            injection hget' with h
            exact h ▸ hfin
    · simp [Gestor.crear_tarea, hperm, hget] at hget'
      exact hget' ▸ hfin
  | asignar a nu nt =>
    simp only [Gestor.step] at hget'
    by_cases hperm : (a.es_admin || a.es_supervisor) = true
    · cases hu : PyDict.get g.usuarios nu with
      | none =>
        simp [Gestor.asignar_usuario_tarea, hperm, hu, hget] at hget'
        exact hget' ▸ hfin
      | some usuario =>
        cases htk : PyDict.get g.tareas nt with
        | none =>
          simp [Gestor.asignar_usuario_tarea, hperm, hu, htk, hget] at hget'
          exact hget' ▸ hfin
        | some tarea =>
          by_cases hcond : a.es_supervisor = true ∧ usuario.rol ≠ "user"
          · simp [Gestor.asignar_usuario_tarea, hperm, hu, htk, hcond, hget]
              at hget'
            exact hget' ▸ hfin
          · simp [Gestor.asignar_usuario_tarea, hperm, hu, htk, hcond,
              PyDict.get_set] at hget'
            by_cases hk : k = nt
            · rw [if_pos hk] at hget'
              rw [hk, htk] at hget
              injection hget with h0
              injection hget' with h1
              rw [← h1, Tarea.agregar_usuario_estado, h0]
              exact hfin
            · rw [if_neg hk, hget] at hget'
              injection hget' with h
              exact h ▸ hfin
    · simp [Gestor.asignar_usuario_tarea, hperm, hget] at hget'
      exact hget' ▸ hfin
  | finalizar nt =>
    simp only [Gestor.step] at hget'
    cases htk : PyDict.get g.tareas nt with
    | none =>
      simp [Gestor.finalizar_tarea, htk, hget] at hget'
      exact hget' ▸ hfin
    | some tarea =>
      cases hc : tarea.cambiar_estado "finalizada" with
      | error e =>
        simp [Gestor.finalizar_tarea, htk, hc, hget] at hget'
        exact hget' ▸ hfin
      | ok tarea' =>
        have hestado : tarea'.estado = "finalizada" := by
          rw [Tarea.cambiar_estado] at hc
          by_cases hfin2 : tarea.estado = "finalizada"
          · rw [if_pos hfin2] at hc
            cases hc
          · rw [if_neg hfin2] at hc
            injection hc with h
            rw [← h]
        simp [Gestor.finalizar_tarea, htk, hc, PyDict.get_set] at hget'
        by_cases hk : k = nt
        · rw [if_pos hk] at hget'
          injection hget' with h
          exact h ▸ hestado
        · rw [if_neg hk, hget] at hget'
          injection hget' with h
          exact h ▸ hfin
  | eliminar nt =>
    simp only [Gestor.step] at hget'
    cases htk : PyDict.get g.tareas nt with
    | none =>
      simp [Gestor.eliminar_tarea, htk, hget] at hget'
      exact hget' ▸ hfin
    | some tarea =>
      by_cases hf : tarea.estado = "finalizada"
      · simp [Gestor.eliminar_tarea, htk, hf, PyDict.get_erase] at hget'
        rw [hget'.2] at hget
        injection hget with h
        rw [h]
        exact hfin
      · simp [Gestor.eliminar_tarea, htk, hf, hget] at hget'
        exact hget' ▸ hfin

/-- C4: a task's status is one-way pending to finished: finishing a pending
task succeeds and a second `finalizar_tarea` of the same task fails with
the StateError; `eliminar_tarea` on a non-finished task fails with the
StateError leaving the task in the live collection; and under every service
operation a finished task never returns to pending. -/
theorem estado_one_way_spec (g : Gestor) (nt : String) (t : Tarea)
    (hget : PyDict.get g.tareas nt = some t) :
    (t.estado ≠ "finalizada" →
      (g.finalizar_tarea nt).result = .ok () ∧
      ((g.finalizar_tarea nt).gestor.finalizar_tarea nt).result =
        .error (.stateError "La tarea ya está finalizada.")) ∧
    (t.estado ≠ "finalizada" →
      g.eliminar_tarea nt =
        ⟨g, [], .error (.stateError "Solo se pueden eliminar tareas finalizadas.")⟩ ∧
      PyDict.get (g.eliminar_tarea nt).gestor.tareas nt = some t) ∧
    (∀ op t', t.estado = "finalizada" →
      PyDict.get (g.step op).tareas nt = some t' → t'.estado = "finalizada") := by
  refine ⟨?_, ?_, ?_⟩
  · intro hpend
    have hget2 : PyDict.get (g.finalizar_tarea nt).gestor.tareas nt =
        some { t with estado := "finalizada" } := by
      simp [Gestor.finalizar_tarea, Tarea.cambiar_estado, hget, hpend,
        PyDict.get_set]
    constructor
    · simp [Gestor.finalizar_tarea, Tarea.cambiar_estado, hget, hpend]
    · generalize hg1 : (g.finalizar_tarea nt).gestor = g1 at hget2
      simp [Gestor.finalizar_tarea, Tarea.cambiar_estado, hget2]
  · intro hpend
    constructor
    · simp [Gestor.eliminar_tarea, hget, hpend]
    · have hg : (g.eliminar_tarea nt).gestor = g := by
        simp [Gestor.eliminar_tarea, hget, hpend]
      rw [hg]
      exact hget
  · intro op t' hfin hget'
    exact step_preserves_finalizada g op nt t t' hget hfin hget'

/-- C4 witness: finishing the pending task "t1" twice — the second call
fails with the StateError — and deleting a pending task "t2" fails with the
StateError, leaving it stored. -/
theorem estado_one_way_spec_witness :
    ((Gestor.finalizar_tarea
      { usuarios := [],
        tareas := [("t1",
          { nombre := "t1", descripcion := "d", estado := "pendiente",
            fecha_creacion := 0, usuarios_asignados := [], comentarios := [] })],
        historico := [] } "t1").gestor.finalizar_tarea "t1").result =
      .error (.stateError "La tarea ya está finalizada.") ∧
    (Gestor.eliminar_tarea
      { usuarios := [],
        tareas := [("t1",
          { nombre := "t1", descripcion := "d", estado := "pendiente",
            fecha_creacion := 0, usuarios_asignados := [], comentarios := [] })],
        historico := [] } "t1").result =
      .error (.stateError "Solo se pueden eliminar tareas finalizadas.") := by
  have h := estado_one_way_spec
    { usuarios := [],
      tareas := [("t1",
        { nombre := "t1", descripcion := "d", estado := "pendiente",
          fecha_creacion := 0, usuarios_asignados := [], comentarios := [] })],
      historico := [] } "t1"
    { nombre := "t1", descripcion := "d", estado := "pendiente",
      fecha_creacion := 0, usuarios_asignados := [], comentarios := [] }
    (by decide)
  refine ⟨(h.1 (by decide)).2, ?_⟩
  rw [(h.2.1 (by decide)).1]

theorem Usuario.init_nombre_usuario {nombre v r : String} {p : Option String}
    {uid : Option String} {f : Option Nat} {fid : String} {now salt : Nat}
    {u : Usuario} (h : Usuario.init nombre v r p uid f fid now salt = .ok u) :
    u.nombre = nombre := by
  by_cases h1 : nombre = ""
  · simp [Usuario.init, h1] at h
  · by_cases h2 : r ≠ "user" ∧ r ≠ "supervisor" ∧ r ≠ "admin"
    · simp [Usuario.init, h1, h2] at h
    · cases p with
      | none =>
        simp [Usuario.init, h1, h2] at h
        rw [← h]
      | some pw =>
        by_cases h4 : pw = ""
        · simp [Usuario.init, Usuario.cambiar_password, h1, h2, h4] at h
        · simp [Usuario.init, Usuario.cambiar_password, h1, h2, h4] at h
          rw [← h]

theorem Tarea.init_nombre_tarea {n d : String} {now : Nat} {t : Tarea}
    (h : Tarea.init n d now = .ok t) : t.nombre = n := by
  by_cases h1 : n = ""
  · simp [Tarea.init, h1] at h
  · simp [Tarea.init, h1] at h
    rw [← h]

theorem Tarea.cambiar_estado_nombre {t t' : Tarea} {s : String}
    (h : t.cambiar_estado s = .ok t') : t'.nombre = t.nombre := by
  rw [Tarea.cambiar_estado] at h
  by_cases h1 : t.estado = "finalizada"
  · rw [if_pos h1] at h
    cases h
  · rw [if_neg h1] at h
    injection h with h2
    rw [← h2]

theorem crear_tarea_usuarios_unchanged (g : Gestor) (n d : String)
    (a : Usuario) (now : Nat) :
    (g.crear_tarea n d a now).gestor.usuarios = g.usuarios := by
  by_cases hperm : (a.es_admin || a.es_supervisor) = true
  · cases hd : PyDict.get g.tareas n with
    | some t => simp [Gestor.crear_tarea, hperm, hd]
    | none =>
      cases hi : Tarea.init n d now with
      | error e => simp [Gestor.crear_tarea, hperm, hd, hi]
      | ok t => simp [Gestor.crear_tarea, hperm, hd, hi]
  · simp [Gestor.crear_tarea, hperm]

theorem asignar_usuarios_unchanged (g : Gestor) (a : Usuario)
    (nu nt : String) :
    (g.asignar_usuario_tarea a nu nt).gestor.usuarios = g.usuarios := by
  by_cases hperm : (a.es_admin || a.es_supervisor) = true
  · cases hus : PyDict.get g.usuarios nu with
    | none => simp [Gestor.asignar_usuario_tarea, hperm, hus]
    | some usuario =>
      cases htk : PyDict.get g.tareas nt with
      | none => simp [Gestor.asignar_usuario_tarea, hperm, hus, htk]
      | some tarea =>
        by_cases hcond : a.es_supervisor = true ∧ usuario.rol ≠ "user"
        · simp [Gestor.asignar_usuario_tarea, hperm, hus, htk, hcond]
        · simp [Gestor.asignar_usuario_tarea, hperm, hus, htk, hcond]
  · simp [Gestor.asignar_usuario_tarea, hperm]

theorem finalizar_usuarios_unchanged (g : Gestor) (nt : String) :
    (g.finalizar_tarea nt).gestor.usuarios = g.usuarios := by
  cases htk : PyDict.get g.tareas nt with
  | none => simp [Gestor.finalizar_tarea, htk]
  | some tarea =>
    cases hc : tarea.cambiar_estado "finalizada" with
    | error e => simp [Gestor.finalizar_tarea, htk, hc]
    | ok tarea' => simp [Gestor.finalizar_tarea, htk, hc]

theorem eliminar_usuarios_unchanged (g : Gestor) (nt : String) :
    (g.eliminar_tarea nt).gestor.usuarios = g.usuarios := by
  cases htk : PyDict.get g.tareas nt with
  | none => simp [Gestor.eliminar_tarea, htk]
  | some tarea =>
    by_cases hf : tarea.estado = "finalizada"
    · simp [Gestor.eliminar_tarea, htk, hf]
    · simp [Gestor.eliminar_tarea, htk, hf]

theorem PyDict.consistent_set {α : Type} (key : α → String)
    (m : List (String × α)) (k : String) (v : α)
    (hm : ∀ j w, PyDict.get m j = some w → key w = j) (hv : key v = k) :
    ∀ j w, PyDict.get (PyDict.set m k v) j = some w → key w = j := by
  intro j w hg
  rw [PyDict.get_set] at hg
  by_cases hk : j = k
  · rw [if_pos hk] at hg
    injection hg with h
    rw [← h, hv]
    exact hk.symm
  · rw [if_neg hk] at hg
    exact hm j w hg

theorem PyDict.consistent_erase {α : Type} (key : α → String)
    (m : List (String × α)) (k : String)
    (hm : ∀ j w, PyDict.get m j = some w → key w = j) :
    ∀ j w, PyDict.get (PyDict.erase m k) j = some w → key w = j := by
  intro j w hg
  rw [PyDict.get_erase] at hg
  by_cases hk : j = k
  · rw [if_pos hk] at hg
    cases hg
  · rw [if_neg hk] at hg
    exact hm j w hg

theorem foldl_set_key_consistent {α : Type} (key : α → String) (l : List α)
    (acc : List (String × α))
    (hacc : ∀ k v, PyDict.get acc k = some v → key v = k) :
    ∀ k v,
      PyDict.get (l.foldl (fun m x => PyDict.set m (key x) x) acc) k = some v →
      key v = k := by
  induction l generalizing acc with
  | nil => exact hacc
  | cons x xs ih =>
    intro k v hget
    exact ih (PyDict.set acc (key x) x)
      (PyDict.consistent_set key acc (key x) x hacc rfl) k v hget

theorem load_claves_consistentes (us : List Usuario) (ts : List Tarea)
    (hist : List TareaDetalle) :
    (Gestor.load us ts hist).claves_consistentes := by
  constructor
  · exact foldl_set_key_consistent Usuario.nombre us []
      (fun k v h => by simp [PyDict.get] at h)
  · exact foldl_set_key_consistent Tarea.nombre ts []
      (fun k v h => by simp [PyDict.get] at h)

theorem step_claves_consistentes (g : Gestor) (op : Op)
    (hinv : g.claves_consistentes) : (g.step op).claves_consistentes := by
  obtain ⟨hu, ht⟩ := hinv
  cases op with
  | crearUsuario n v r p fid now salt =>
    refine ⟨?_, ?_⟩
    · simp only [Gestor.step]
      cases hd : PyDict.get g.usuarios n with
      | some u0 =>
        intro k u hg
        simp [Gestor.crear_usuario, hd] at hg
        exact hu k u hg
      | none =>
        cases hi : Usuario.init n v r p none none fid now salt with
        | error e =>
          intro k u hg
          simp [Gestor.crear_usuario, hd, hi] at hg
          exact hu k u hg
        | ok u0 =>
          intro k u hg
          simp [Gestor.crear_usuario, hd, hi] at hg
          exact PyDict.consistent_set Usuario.nombre g.usuarios n u0 hu
            (Usuario.init_nombre_usuario hi) k u hg
    · intro k t hg
      simp only [Gestor.step] at hg
      rw [crear_usuario_tareas_unchanged] at hg
      exact ht k t hg
  | autenticar n p =>
    simp only [Gestor.step, autenticar_gestor_unchanged]
    exact ⟨hu, ht⟩
  | resetearPassword a n =>
    refine ⟨?_, ?_⟩
    · simp only [Gestor.step]
      by_cases ha : a.es_admin = true
      · cases hd : PyDict.get g.usuarios n with
        | none =>
          intro k u hg
          simp [Gestor.resetear_password_usuario, ha, hd] at hg
          exact hu k u hg
        | some u0 =>
          intro k u hg
          simp [Gestor.resetear_password_usuario, ha, hd] at hg
          refine PyDict.consistent_set Usuario.nombre g.usuarios n
            u0.resetear_password hu ?_ k u hg
          have hn0 : u0.nombre = n := hu n u0 hd
          simpa [Usuario.resetear_password] using hn0
      · intro k u hg
        simp [Gestor.resetear_password_usuario, ha] at hg
        exact hu k u hg
    · intro k t hg
      simp only [Gestor.step] at hg
      rw [resetear_tareas_unchanged] at hg
      exact ht k t hg
  | crearTarea n d a now =>
    refine ⟨?_, ?_⟩
    · intro k u hg
      simp only [Gestor.step] at hg
      rw [crear_tarea_usuarios_unchanged] at hg
      exact hu k u hg
    · simp only [Gestor.step]
      by_cases hperm : (a.es_admin || a.es_supervisor) = true
      · cases hd : PyDict.get g.tareas n with
        | some t0 =>
          intro k t hg
          simp [Gestor.crear_tarea, hperm, hd] at hg
          exact ht k t hg
        | none =>
          cases hi : Tarea.init n d now with
          | error e =>
            intro k t hg
            simp [Gestor.crear_tarea, hperm, hd, hi] at hg
            exact ht k t hg
          | ok t0 =>
            intro k t hg
            simp [Gestor.crear_tarea, hperm, hd, hi] at hg
            exact PyDict.consistent_set Tarea.nombre g.tareas n t0 ht
              (Tarea.init_nombre_tarea hi) k t hg
      · intro k t hg
        simp [Gestor.crear_tarea, hperm] at hg
        exact ht k t hg
  | asignar a nu nt =>
    refine ⟨?_, ?_⟩
    · intro k u hg
      simp only [Gestor.step] at hg
      rw [asignar_usuarios_unchanged] at hg
      exact hu k u hg
    · simp only [Gestor.step]
      by_cases hperm : (a.es_admin || a.es_supervisor) = true
      · cases hus : PyDict.get g.usuarios nu with
        | none =>
          intro k t hg
          simp [Gestor.asignar_usuario_tarea, hperm, hus] at hg
          exact ht k t hg
        | some usuario =>
          cases htk : PyDict.get g.tareas nt with
          | none =>
            intro k t hg
            simp [Gestor.asignar_usuario_tarea, hperm, hus, htk] at hg
            exact ht k t hg
          | some tarea =>
            by_cases hcond : a.es_supervisor = true ∧ usuario.rol ≠ "user"
            · intro k t hg
              simp [Gestor.asignar_usuario_tarea, hperm, hus, htk, hcond] at hg
              exact ht k t hg
            · intro k t hg
              simp [Gestor.asignar_usuario_tarea, hperm, hus, htk, hcond] at hg
              refine PyDict.consistent_set Tarea.nombre g.tareas nt
                (tarea.agregar_usuario usuario) ht ?_ k t hg
              rw [Tarea.agregar_usuario_nombre]
              exact ht nt tarea htk
      · intro k t hg
        simp [Gestor.asignar_usuario_tarea, hperm] at hg
        exact ht k t hg
  | finalizar nt =>
    refine ⟨?_, ?_⟩
    · intro k u hg
      simp only [Gestor.step] at hg
      rw [finalizar_usuarios_unchanged] at hg
      exact hu k u hg
    · simp only [Gestor.step]
      cases htk : PyDict.get g.tareas nt with
      | none =>
        intro k t hg
        simp [Gestor.finalizar_tarea, htk] at hg
        exact ht k t hg
      | some tarea =>
        cases hc : tarea.cambiar_estado "finalizada" with
        | error e =>
          intro k t hg
          simp [Gestor.finalizar_tarea, htk, hc] at hg
          exact ht k t hg
        | ok tarea' =>
          intro k t hg
          simp [Gestor.finalizar_tarea, htk, hc] at hg
          refine PyDict.consistent_set Tarea.nombre g.tareas nt tarea' ht ?_
            k t hg
          rw [Tarea.cambiar_estado_nombre hc]
          exact ht nt tarea htk
  | eliminar nt =>
    refine ⟨?_, ?_⟩
    · intro k u hg
      simp only [Gestor.step] at hg
      rw [eliminar_usuarios_unchanged] at hg
      exact hu k u hg
    · simp only [Gestor.step]
      cases htk : PyDict.get g.tareas nt with
      | none =>
        intro k t hg
        simp [Gestor.eliminar_tarea, htk] at hg
        exact ht k t hg
      | some tarea =>
        by_cases hf : tarea.estado = "finalizada"
        · intro k t hg
          simp [Gestor.eliminar_tarea, htk, hf] at hg
          exact PyDict.consistent_erase Tarea.nombre g.tareas nt ht k t hg
        · intro k t hg
          simp [Gestor.eliminar_tarea, htk, hf] at hg
          exact ht k t hg

/-- C10: the loaded initial state keys both maps by each entity's own name,
and every service operation preserves this key consistency, so it holds in
every reachable state. -/
theorem claves_consistentes_spec (g : Gestor) (op : Op)
    (us : List Usuario) (ts : List Tarea) (hist : List TareaDetalle)
    (hinv : g.claves_consistentes) :
    (Gestor.load us ts hist).claves_consistentes ∧
    (g.step op).claves_consistentes :=
  ⟨load_claves_consistentes us ts hist, step_claves_consistentes g op hinv⟩

/-- C10 witness: a concrete load of one user and one task, and one step of
`crear_usuario` from that loaded state. -/
theorem claves_consistentes_spec_witness :
    (Gestor.load
      [{ id := "a1", nombre := "alice", nombre_visible := "Alice",
         rol := "admin", fecha_creacion := 0, password_hash := none }]
      [{ nombre := "t1", descripcion := "d", estado := "pendiente",
         fecha_creacion := 0, usuarios_asignados := [], comentarios := [] }]
      []).claves_consistentes ∧
    ((Gestor.load
      [{ id := "a1", nombre := "alice", nombre_visible := "Alice",
         rol := "admin", fecha_creacion := 0, password_hash := none }]
      [{ nombre := "t1", descripcion := "d", estado := "pendiente",
         fecha_creacion := 0, usuarios_asignados := [], comentarios := [] }]
      []).step (Op.crearUsuario "bob" "B" "user" none "b1" 2 3)).claves_consistentes := by
  have h0 := claves_consistentes_spec
    { usuarios := [], tareas := [], historico := [] }
    (Op.autenticar "x" "y")
    [{ id := "a1", nombre := "alice", nombre_visible := "Alice",
       rol := "admin", fecha_creacion := 0, password_hash := none }]
    [{ nombre := "t1", descripcion := "d", estado := "pendiente",
       fecha_creacion := 0, usuarios_asignados := [], comentarios := [] }]
    []
    ⟨fun k u h => by simp [PyDict.get] at h, fun k t h => by simp [PyDict.get] at h⟩
  have h1 := claves_consistentes_spec
    (Gestor.load
      [{ id := "a1", nombre := "alice", nombre_visible := "Alice",
         rol := "admin", fecha_creacion := 0, password_hash := none }]
      [{ nombre := "t1", descripcion := "d", estado := "pendiente",
         fecha_creacion := 0, usuarios_asignados := [], comentarios := [] }]
      [])
    (Op.crearUsuario "bob" "B" "user" none "b1" 2 3)
    [] [] [] h0.1
  exact ⟨h0.1, h1.2⟩
